import Mathlib

/-!
Shallow embedding of the whisper-type voice-to-text pipeline.

Audio samples are modelled as rationals, a chunk (one capture-callback
block, `indata.flatten()`) as a list of samples.  The external resampy
conversion and the Whisper engine are parameters; a raised exception is
an `Except.error`.  The two top-level scripts, `voicetotext.py`
(structure `VTT`) and `collect_voice_samples.py` (structure `Collector`),
are embedded separately where their code differs.
-/

/-- One audio chunk: the flattened single-channel float block delivered by a
capture callback. -/
abbrev Chunk := List ℚ

/-- Energy-gate threshold, the literal `0.0005` of
`voicetotext.py` line 64 and `collect_voice_samples.py` line 66. -/
def gateThreshold : ℚ := 5 / 10000

/-- `np.max(np.abs(audio_data))` over a chunk (0 on an empty chunk). -/
def chunkMaxAbs (c : Chunk) : ℚ := (c.map (fun x => |x|)).foldr max 0

/-- The external `resampy.resample` call: concatenated samples, source rate
(`self.current_samplerate`, `none` before a stream has been opened) and target
rate; `Except.error` models a raised exception. -/
abbrev Resampler := Chunk → Option ℕ → ℕ → Except Unit Chunk

/-- The external `model.transcribe` call on the combined session audio,
returning the recognized text; `Except.error` models a raised exception. -/
abbrev Engine := Chunk → Except Unit String

/-- State of `VoiceToText` (voicetotext.py): the fields the pipeline claims
touch, plus instrumentation counters (`transcribeCalls` counts
`model.transcribe` invocations, `emitted` the texts typed by `insert_text`,
`errorsLogged` the exception-handler log lines, `spawnCount` the capture
threads started). -/
structure VTT where
  recording : Bool
  audio_data : List Chunk
  resample_buffer : List Chunk
  current_samplerate : Option ℕ
  target_samplerate : ℕ
  transcribeCalls : ℕ
  emitted : List String
  errorsLogged : ℕ
  spawnCount : ℕ
deriving Repr

/-- `VoiceToText.__init__`: recording off, empty accumulators, no sample rate
known yet, target fixed at 16000 Hz. -/
def initVTT : VTT :=
  { recording := false
    audio_data := []
    resample_buffer := []
    current_samplerate := none
    target_samplerate := 16000
    transcribeCalls := 0
    emitted := []
    errorsLogged := 0
    spawnCount := 0 }

/-- `VoiceToText.audio_callback` (lines 51-88): gate on max absolute sample,
append to the resample buffer, and at 4 buffered chunks concatenate, resample
(resampy is called unconditionally, with no rate-equality check on this path)
and append to `audio_data`, clearing the buffer; an exception during
conversion logs and clears the buffer. -/
def audio_callback (rs : Resampler) (s : VTT) (indata : Chunk) : VTT :=
  if chunkMaxAbs indata < gateThreshold then
    s
  else
    let buffer := s.resample_buffer ++ [indata]
    if 4 ≤ buffer.length then
      match rs buffer.flatten s.current_samplerate s.target_samplerate with
      | Except.ok resampled =>
          { s with audio_data := s.audio_data ++ [resampled], resample_buffer := [] }
      | Except.error _ =>
          { s with resample_buffer := [], errorsLogged := s.errorsLogged + 1 }
    else
      { s with resample_buffer := buffer }

/-- The capture loop's effect on the state: the stream delivers blocks in
arrival order, each handled by `audio_callback`. -/
def runCallbacks (rs : Resampler) (s : VTT) (chunks : List Chunk) : VTT :=
  chunks.foldl (audio_callback rs) s

/-- Outcome of `record_audio`: normal loop exit, or the early return / caught
exception when no input device can be found or opened. -/
inductive CaptureOutcome where
  | ok : CaptureOutcome
  | deviceError : CaptureOutcome
deriving DecidableEq, Repr

/-- `VoiceToText.record_audio` (lines 90-146): `device` is `some rate` when an
input device was found and the stream opened at that native rate, `none` when
no device exists or opening raised.  On failure the error is printed (logged)
and the thread function returns with the session state otherwise untouched; on
success the callback runs over the arriving blocks. -/
def record_audio (device : Option ℕ) (rs : Resampler) (incoming : List Chunk)
    (s : VTT) : VTT × CaptureOutcome :=
  match device with
  | none => ({ s with errorsLogged := s.errorsLogged + 1 }, CaptureOutcome.deviceError)
  | some rate =>
      (runCallbacks rs { s with current_samplerate := some rate } incoming,
       CaptureOutcome.ok)

/-- `VoiceToText.toggle_recording` stop path, lines 158-167: if the resample
buffer is nonempty, concatenate it, convert only when the current rate differs
from the target, and append; on an exception the error is logged and nothing
else happens (the buffer is NOT cleared in the except branch). -/
def flushRemainder (rs : Resampler) (s : VTT) : VTT :=
  if s.resample_buffer ≠ [] then
    let audio := s.resample_buffer.flatten
    let converted : Except Unit Chunk :=
      if s.current_samplerate ≠ some s.target_samplerate then
        rs audio s.current_samplerate s.target_samplerate
      else
        Except.ok audio
    match converted with
    | Except.ok a =>
        { s with audio_data := s.audio_data ++ [a], resample_buffer := [] }
    | Except.error _ =>
        { s with errorsLogged := s.errorsLogged + 1 }
  else
    s

/-- `VoiceToText.insert_text` (lines 213-223): type the text only when its
strip is nonempty. -/
def insert_text (s : VTT) (text : String) : VTT :=
  if text.trim ≠ "" then
    { s with emitted := s.emitted ++ [text] }
  else
    s

/-- `VoiceToText.toggle_recording` final-result block, lines 170-198: if any
audio was accumulated, concatenate it and call the engine; a nonempty stripped
result is inserted; an engine exception is logged; with no audio the engine is
never called. -/
def finalizeSession (eng : Engine) (s : VTT) : VTT :=
  if s.audio_data ≠ [] then
    match eng s.audio_data.flatten with
    | Except.ok raw =>
        let s1 := { s with transcribeCalls := s.transcribeCalls + 1 }
        if raw.trim ≠ "" then insert_text s1 raw.trim else s1
    | Except.error _ =>
        { s with transcribeCalls := s.transcribeCalls + 1,
                 errorsLogged := s.errorsLogged + 1 }
  else
    s

/-- `VoiceToText.toggle_recording` (lines 148-200): flip the flag; when it
turns on, clear `audio_data` and spawn the capture thread; when it turns off,
flush the remainder and run the final-result block.  The spawned thread's own
execution is `record_audio`, modelled separately; no join is performed on this
stop path. -/
def toggle_recording (rs : Resampler) (eng : Engine) (s : VTT) : VTT :=
  let s0 := { s with recording := !s.recording }
  if s0.recording then
    { s0 with audio_data := [], spawnCount := s0.spawnCount + 1 }
  else
    finalizeSession eng (flushRemainder rs s0)

/-- State of `VoiceSampleCollector` (collect_voice_samples.py), with the same
instrumentation counters. -/
structure Collector where
  recording : Bool
  audio_data : List Chunk
  resample_buffer : List Chunk
  current_samplerate : Option ℕ
  target_samplerate : ℕ
  errorsLogged : ℕ
  spawnCount : ℕ
deriving Repr

/-- Linear interpolation of `np.interp(x, np.arange(fp.length), fp)` at one
query point: clamped at both ends, else interpolate between the two
neighbouring samples. -/
def npInterpAt (fp : List ℚ) (x : ℚ) : ℚ :=
  match fp with
  | [] => 0
  | f0 :: _ =>
      if x ≤ 0 then f0
      else if ((fp.length : ℚ) - 1) ≤ x then fp.getD (fp.length - 1) 0
      else
        let i : ℕ := ⌊x⌋₊
        let t : ℚ := x - (i : ℚ)
        fp.getD i 0 * (1 - t) + fp.getD (i + 1) 0 * t

/-- `np.linspace(0, stop, num)`: `num` evenly spaced points from 0 to `stop`
inclusive. -/
def linspace (stop : ℚ) (num : ℕ) : List ℚ :=
  (List.range num).map
    (fun (i : ℕ) => if num ≤ 1 then 0 else stop * (i : ℚ) / ((num : ℚ) - 1))

/-- The linear-interpolation fallback of
`collect_voice_samples.py` lines 85-92: output grid length is
`int(orig_len * target / native)` (Python `int` truncates, i.e. floor), values
by `np.interp` over the original index grid. -/
def interpResample (data : Chunk) (native target : ℕ) : Chunk :=
  let origLen := data.length
  let newLen := origLen * target / native
  (linspace (origLen : ℚ) newLen).map (npInterpAt data)

/-- `VoiceSampleCollector.audio_callback` (lines 57-101): same gate and
4-chunk buffer, but conversion is skipped when the rates agree, and when
resampy is unavailable the linear-interpolation fallback runs (with no rate
the fallback itself raises, caught by the outer handler).  An exception logs
and clears the buffer. -/
def audio_callbackCollect (resampyAvailable : Bool) (rs : Resampler)
    (s : Collector) (indata : Chunk) : Collector :=
  if chunkMaxAbs indata < gateThreshold then
    s
  else
    let buffer := s.resample_buffer ++ [indata]
    if 4 ≤ buffer.length then
      let data := buffer.flatten
      let converted : Except Unit Chunk :=
        if s.current_samplerate ≠ some s.target_samplerate then
          if resampyAvailable then
            rs data s.current_samplerate s.target_samplerate
          else
            match s.current_samplerate with
            | some r => Except.ok (interpResample data r s.target_samplerate)
            | none => Except.error ()
        else
          Except.ok data
      match converted with
      | Except.ok a =>
          { s with audio_data := s.audio_data ++ [a], resample_buffer := [] }
      | Except.error _ =>
          { s with resample_buffer := [], errorsLogged := s.errorsLogged + 1 }
    else
      { s with resample_buffer := buffer }

/-- `VoiceSampleCollector.start_recording` (lines 143-148): unconditionally
set the flag, clear the accumulated audio and start a new capture thread — no
guard against already being in a live session, and the resample buffer is left
untouched. -/
def start_recording (s : Collector) : Collector :=
  { s with recording := true, audio_data := [], spawnCount := s.spawnCount + 1 }

/-- `VoiceSampleCollector.stop_recording` remainder flush (lines 156-165):
same shape as `flushRemainder`; the except branch only prints, leaving the
buffer uncleared. -/
def stopFlushCollect (rs : Resampler) (s : Collector) : Collector :=
  if s.resample_buffer ≠ [] then
    let audio := s.resample_buffer.flatten
    let converted : Except Unit Chunk :=
      if s.current_samplerate ≠ some s.target_samplerate then
        rs audio s.current_samplerate s.target_samplerate
      else
        Except.ok audio
    match converted with
    | Except.ok a =>
        { s with audio_data := s.audio_data ++ [a], resample_buffer := [] }
    | Except.error _ =>
        { s with errorsLogged := s.errorsLogged + 1 }
  else
    s

/-- The operations, in program order, that a stop procedure performs on the
shared session data. -/
inductive StopAction where
  | clearFlag : StopAction
  | joinThread : StopAction
  | flushBuffer : StopAction
  | finalizeEngine : StopAction
deriving DecidableEq, Repr

/-- Statement order of `VoiceToText.toggle_recording`'s stop branch
(lines 150, 158-167, 170-198): the recording flag is cleared, the remainder is
flushed and the engine finalizes — the spawned `record_audio` thread is never
joined (no handle to it is even kept). -/
def vttStopTrace : List StopAction :=
  [StopAction.clearFlag, StopAction.flushBuffer, StopAction.finalizeEngine]

/-- Statement order of `VoiceSampleCollector.stop_recording`
(lines 150-182): flag cleared, `self.record_thread.flatten()`, remainder flush,
engine finalize. -/
def collectStopTrace : List StopAction :=
  [StopAction.clearFlag, StopAction.joinThread, StopAction.flushBuffer,
   StopAction.finalizeEngine]

/-- Identity resampler instance (conversion that returns its input). -/
def rsId : Resampler := fun c _ _ => Except.ok c

/-- A resampler instance whose conversion always raises. -/
def rsFail : Resampler := fun _ _ _ => Except.error ()

/-- A deterministic resampler instance returning an empty chunk. -/
def rsEmpty : Resampler := fun _ _ _ => Except.ok []

/-- An engine instance recognizing nothing. -/
def engEmpty : Engine := fun _ => Except.ok ""

/-- Stop-time state of a session that still holds one buffered chunk, with a
native rate different from the target. -/
def c4state : VTT :=
  { recording := true
    audio_data := []
    resample_buffer := [[1]]
    current_samplerate := some 44100
    target_samplerate := 16000
    transcribeCalls := 0
    emitted := []
    errorsLogged := 0
    spawnCount := 1 }

/-- Live-push state used to instantiate the C4 amendment: three buffered
chunks, a fourth loud chunk arriving, a conversion that always raises. -/
def c4live : VTT :=
  { recording := true
    audio_data := []
    resample_buffer := [[1], [1], [1]]
    current_samplerate := some 44100
    target_samplerate := 16000
    transcribeCalls := 0
    emitted := []
    errorsLogged := 0
    spawnCount := 1 }

/-- Live state with three buffered chunks whose native rate already equals the
16 kHz target. -/
def c5state : VTT :=
  { recording := true
    audio_data := []
    resample_buffer := [[1], [1], [1]]
    current_samplerate := some 16000
    target_samplerate := 16000
    transcribeCalls := 0
    emitted := []
    errorsLogged := 0
    spawnCount := 1 }

/-- Stop-time state with a buffered remainder whose native rate already equals
the target. -/
def c5stop : VTT :=
  { recording := true
    audio_data := []
    resample_buffer := [[1], [2]]
    current_samplerate := some 16000
    target_samplerate := 16000
    transcribeCalls := 0
    emitted := []
    errorsLogged := 0
    spawnCount := 1 }

/-- A controller state that is mid-session (recording flag set). -/
def c9vtt : VTT :=
  { recording := true
    audio_data := []
    resample_buffer := []
    current_samplerate := some 44100
    target_samplerate := 16000
    transcribeCalls := 0
    emitted := []
    errorsLogged := 0
    spawnCount := 1 }

/-- A live collector session that has already accumulated one resampled
chunk. -/
def c9state : Collector :=
  { recording := true
    audio_data := [[1]]
    resample_buffer := []
    current_samplerate := some 44100
    target_samplerate := 16000
    errorsLogged := 0
    spawnCount := 1 }

/-- An idle controller state left over from a previous session: three chunks
still sit in the resample buffer (as after a failed stop-time conversion) and
stale accumulated audio is present. -/
def c10state : VTT :=
  { recording := false
    audio_data := [[9]]
    resample_buffer := [[1], [2], [3]]
    current_samplerate := some 16000
    target_samplerate := 16000
    transcribeCalls := 0
    emitted := []
    errorsLogged := 0
    spawnCount := 1 }

/-- An idle collector state with a leftover buffered chunk. -/
def c10coll : Collector :=
  { recording := false
    audio_data := []
    resample_buffer := [[7]]
    current_samplerate := some 44100
    target_samplerate := 16000
    errorsLogged := 0
    spawnCount := 0 }

/-! ## Helper lemmas -/

theorem audio_callback_quiet (rs : Resampler) (s : VTT) (c : Chunk)
    (h : chunkMaxAbs c < gateThreshold) :
    audio_callback rs s c = s := by
  simp [audio_callback, h]

theorem audio_callback_retain (rs : Resampler) (s : VTT) (c : Chunk)
    (hc : ¬ chunkMaxAbs c < gateThreshold)
    (hlt : s.resample_buffer.length < 3) :
    audio_callback rs s c = { s with resample_buffer := s.resample_buffer ++ [c] } := by
  have h4 : ¬ 4 ≤ (s.resample_buffer ++ [c]).length := by
    simp only [List.length_append, List.length_cons, List.length_nil]
    omega
  simp only [audio_callback, if_neg hc, if_neg h4]

theorem audio_callback_flush (rs : Resampler) (s : VTT) (c : Chunk) (r : Chunk)
    (hc : ¬ chunkMaxAbs c < gateThreshold)
    (hfull : s.resample_buffer.length = 3)
    (hok : rs (s.resample_buffer ++ [c]).flatten s.current_samplerate s.target_samplerate
             = Except.ok r) :
    audio_callback rs s c
      = { s with audio_data := s.audio_data ++ [r], resample_buffer := [] } := by
  have h4 : 4 ≤ (s.resample_buffer ++ [c]).length := by
    simp only [List.length_append, List.length_cons, List.length_nil]
    omega
  simp only [audio_callback, if_neg hc, if_pos h4, hok]

theorem audio_callback_buffer_le (rs : Resampler) (s : VTT) (c : Chunk)
    (h : s.resample_buffer.length ≤ 3) :
    (audio_callback rs s c).resample_buffer.length ≤ 3 := by
  unfold audio_callback
  by_cases hq : chunkMaxAbs c < gateThreshold
  · simp only [if_pos hq]; exact h
  · simp only [if_neg hq]
    by_cases h4 : 4 ≤ (s.resample_buffer ++ [c]).length
    · simp only [if_pos h4]
      cases rs (s.resample_buffer ++ [c]).flatten s.current_samplerate s.target_samplerate
        with
      | ok r => simp
      | error e => simp
    · simp only [if_neg h4]
      simp only [List.length_append, List.length_cons, List.length_nil] at h4 ⊢
      omega

theorem runCallbacks_buffer_le (rs : Resampler) (chunks : List Chunk) (s : VTT)
    (h : s.resample_buffer.length ≤ 3) :
    (runCallbacks rs s chunks).resample_buffer.length ≤ 3 := by
  induction chunks generalizing s with
  | nil => exact h
  | cons c cs ih => exact ih _ (audio_callback_buffer_le rs s c h)

/-! ## Claims -/

/-- C1: for every sequence of admitted chunks pushed through the resampler,
the resample buffer holds at most 3 chunks between calls; a push that brings
the buffer to the flush threshold of 4 concatenates the buffered chunks in
arrival order, resamples the concatenation, appends the result to the
session's accumulated audio and clears the buffer, while a push below the
threshold returns nothing (accumulated audio unchanged) and retains the
chunk. -/
theorem c1_resample_buffer_invariant (rs : Resampler) (chunks : List Chunk) (s : VTT)
    (hbuf : s.resample_buffer.length ≤ 3) :
    (runCallbacks rs s chunks).resample_buffer.length ≤ 3 ∧
    (∀ c r, ¬ chunkMaxAbs c < gateThreshold → s.resample_buffer.length = 3 →
        rs (s.resample_buffer ++ [c]).flatten s.current_samplerate s.target_samplerate
          = Except.ok r →
        audio_callback rs s c
          = { s with audio_data := s.audio_data ++ [r], resample_buffer := [] }) ∧
    (∀ c, ¬ chunkMaxAbs c < gateThreshold → s.resample_buffer.length < 3 →
        audio_callback rs s c
          = { s with resample_buffer := s.resample_buffer ++ [c] }) := by
  refine ⟨runCallbacks_buffer_le rs chunks s hbuf, ?_, ?_⟩
  · intro c r hc hfull hok
    exact audio_callback_flush rs s c r hc hfull hok
  · intro c hc hlt
    exact audio_callback_retain rs s c hc hlt

theorem c1_resample_buffer_invariant_witness :
    initVTT.resample_buffer.length ≤ 3 ∧
    (runCallbacks rsId initVTT [[1], [1], [1], [1]]).resample_buffer.length ≤ 3 :=
  ⟨by decide,
   (c1_resample_buffer_invariant rsId [[1], [1], [1], [1]] initVTT (by decide)).1⟩

/-- C2: a captured chunk whose maximum absolute sample value is below the
energy threshold 0.0005 is rejected by the gate: the callback leaves the state
unchanged (it never enters the resample buffer), so any session run with the
quiet chunk produces exactly the state of the same run without it — the chunk
never appears in any resampled output. -/
theorem c2_quiet_chunk_never_enters (rs : Resampler) (s : VTT) (c : Chunk)
    (h : chunkMaxAbs c < gateThreshold) :
    audio_callback rs s c = s ∧
    ∀ pre post : List Chunk,
      runCallbacks rs s (pre ++ c :: post) = runCallbacks rs s (pre ++ post) := by
  refine ⟨audio_callback_quiet rs s c h, ?_⟩
  intro pre post
  simp only [runCallbacks, List.foldl_append, List.foldl_cons,
    audio_callback_quiet rs _ c h]

theorem c2_quiet_chunk_never_enters_witness :
    chunkMaxAbs [0] < gateThreshold ∧
    audio_callback rsId initVTT [0] = initVTT :=
  ⟨by simp [chunkMaxAbs, gateThreshold],
   (c2_quiet_chunk_never_enters rsId initVTT [0]
     (by simp [chunkMaxAbs, gateThreshold])).1⟩

/-- C3 counterexample: the claim says a device-open failure takes the session
directly from Recording back to Idle, i.e. the recording flag would be off
after the capture thread fails.  Concretely: from the initial state, a start
toggle turns the flag on, and a failing `record_audio` run reports the device
error but leaves `recording = true` — the controller is still in Recording,
not Idle (it returns to Idle only at the next toggle). -/
theorem c3_device_failure_counterexample :
    (toggle_recording rsId engEmpty initVTT).recording = true ∧
    (record_audio none rsId [] (toggle_recording rsId engEmpty initVTT)).2
      = CaptureOutcome.deviceError ∧
    (record_audio none rsId [] (toggle_recording rsId engEmpty initVTT)).1.recording
      = true :=
  ⟨rfl, rfl, rfl⟩

/-- C3 (amended): when the capture thread cannot open an audio input device
after a start toggle, the error is reported (logged) and the capture thread
terminates without touching the rest of the session state: the transcription
engine is never invoked, no text is emitted and the failure is not fatal —
but the recording flag is left set, so the controller remains in Recording
until the next toggle rather than transitioning directly to Idle. -/
theorem c3_device_failure_amended (rs : Resampler) (chunks : List Chunk) (s : VTT) :
    record_audio none rs chunks s
      = ({ s with errorsLogged := s.errorsLogged + 1 }, CaptureOutcome.deviceError) ∧
    (record_audio none rs chunks s).1.recording = s.recording ∧
    (record_audio none rs chunks s).1.transcribeCalls = s.transcribeCalls ∧
    (record_audio none rs chunks s).1.emitted = s.emitted ∧
    (record_audio none rs chunks s).1.audio_data = s.audio_data ∧
    (record_audio none rs chunks s).1.resample_buffer = s.resample_buffer :=
  ⟨rfl, rfl, rfl, rfl, rfl, rfl⟩

/-- C4 counterexample: the claim says a conversion exception during the
session-stop remainder flush leaves the buffer cleared.  Concretely: stopping
a session holding one buffered chunk with an always-raising conversion logs
the error but leaves the resample buffer still holding that chunk — it is not
cleared on this path. -/
theorem c4_stop_flush_counterexample :
    (toggle_recording rsFail engEmpty c4state).resample_buffer = [[1]] ∧
    (toggle_recording rsFail engEmpty c4state).resample_buffer ≠ [] := by
  refine ⟨rfl, by decide⟩

/-- C4 (amended): any conversion exception is caught and logged and the
pipeline continues (the callback and the stop path return normally).  On a
live push at the flush threshold the buffer's contents are discarded and the
buffer cleared; but on the stop-time remainder flush (both scripts) the except
branch only logs: nothing is appended and the buffer is left uncleared, its
contents retained. -/
theorem c4_conversion_failure_amended (rs : Resampler) (s : VTT) (c : Chunk)
    (hc : ¬ chunkMaxAbs c < gateThreshold)
    (hfull : s.resample_buffer.length = 3)
    (herr : rs (s.resample_buffer ++ [c]).flatten s.current_samplerate s.target_samplerate
              = Except.error ()) :
    audio_callback rs s c
      = { s with resample_buffer := [], errorsLogged := s.errorsLogged + 1 } ∧
    (∀ t : VTT, t.resample_buffer ≠ [] →
      t.current_samplerate ≠ some t.target_samplerate →
      rs t.resample_buffer.flatten t.current_samplerate t.target_samplerate
        = Except.error () →
      flushRemainder rs t = { t with errorsLogged := t.errorsLogged + 1 }) ∧
    (∀ u : Collector, u.resample_buffer ≠ [] →
      u.current_samplerate ≠ some u.target_samplerate →
      rs u.resample_buffer.flatten u.current_samplerate u.target_samplerate
        = Except.error () →
      stopFlushCollect rs u = { u with errorsLogged := u.errorsLogged + 1 }) := by
  refine ⟨?_, ?_, ?_⟩
  · have h4 : 4 ≤ (s.resample_buffer ++ [c]).length := by
      simp only [List.length_append, List.length_cons, List.length_nil]
      omega
    simp only [audio_callback, if_neg hc, if_pos h4, herr]
  · intro t hne hrate herr2
    simp only [flushRemainder, if_pos hne, if_pos hrate, herr2]
  · intro u hne hrate herr2
    simp only [stopFlushCollect, if_pos hne, if_pos hrate, herr2]

theorem c4_conversion_failure_amended_witness :
    (¬ chunkMaxAbs [1] < gateThreshold) ∧
    c4live.resample_buffer.length = 3 ∧
    rsFail (c4live.resample_buffer ++ [[1]]).flatten c4live.current_samplerate
      c4live.target_samplerate = Except.error () ∧
    audio_callback rsFail c4live [1]
      = { c4live with resample_buffer := [],
                      errorsLogged := c4live.errorsLogged + 1 } :=
  ⟨by simp [chunkMaxAbs, gateThreshold]; norm_num, rfl, rfl,
   (c4_conversion_failure_amended rsFail c4live [1]
     (by simp [chunkMaxAbs, gateThreshold]; norm_num) rfl rfl).1⟩

/-- C5 counterexample: the claim says that whenever the native rate equals the
target rate the resampling step applied to a flushed buffer is the identity on
the live push path too.  But `VoiceToText.audio_callback` calls the external
resampler unconditionally — there is no rate-equality check on that path — so
the flushed output is whatever the conversion returns.  Concretely, with a
conversion returning an empty chunk and equal rates, the appended output is
empty while the concatenated buffered input is not. -/
theorem c5_live_identity_counterexample :
    c5state.current_samplerate = some c5state.target_samplerate ∧
    (audio_callback rsEmpty c5state [1]).audio_data = [([] : Chunk)] ∧
    (c5state.resample_buffer ++ [[1]]).flatten ≠ ([] : Chunk) := by
  refine ⟨rfl, ?_, by decide⟩
  rw [audio_callback_flush rsEmpty c5state [1] []
    (by simp [chunkMaxAbs, gateThreshold]; norm_num) rfl rfl]
  rfl

/-- C5 (amended): when the native rate equals the 16 kHz target, the
conversion step is skipped and the flushed output equals the concatenated
input exactly on the session-stop remainder flush of both scripts and on the
sample collector's live push path; on voicetotext's live push path the
external resampler is invoked unconditionally even at equal rates, so the
output equals the input only when that conversion itself returns its input
unchanged. -/
theorem c5_equal_rate_identity_amended (rs : Resampler) :
    (∀ s : VTT, s.current_samplerate = some s.target_samplerate →
        s.resample_buffer ≠ [] →
        flushRemainder rs s
          = { s with audio_data := s.audio_data ++ [s.resample_buffer.flatten],
                     resample_buffer := [] }) ∧
    (∀ (t : Collector) (avail : Bool) (c : Chunk),
        t.current_samplerate = some t.target_samplerate →
        ¬ chunkMaxAbs c < gateThreshold → t.resample_buffer.length = 3 →
        audio_callbackCollect avail rs t c
          = { t with audio_data := t.audio_data ++ [(t.resample_buffer ++ [c]).flatten],
                     resample_buffer := [] }) ∧
    (∀ t : Collector, t.current_samplerate = some t.target_samplerate →
        t.resample_buffer ≠ [] →
        stopFlushCollect rs t
          = { t with audio_data := t.audio_data ++ [t.resample_buffer.flatten],
                     resample_buffer := [] }) ∧
    (∀ (s : VTT) (c : Chunk),
        ¬ chunkMaxAbs c < gateThreshold → s.resample_buffer.length = 3 →
        rs (s.resample_buffer ++ [c]).flatten s.current_samplerate s.target_samplerate
          = Except.ok ((s.resample_buffer ++ [c]).flatten) →
        audio_callback rs s c
          = { s with audio_data := s.audio_data ++ [(s.resample_buffer ++ [c]).flatten],
                     resample_buffer := [] }) := by
  refine ⟨?_, ?_, ?_, ?_⟩
  · intro s hs hne
    have hrate : ¬ s.current_samplerate ≠ some s.target_samplerate := by simp [hs]
    simp only [flushRemainder, if_pos hne, if_neg hrate]
  · intro t avail c ht hc hfull
    have h4 : 4 ≤ (t.resample_buffer ++ [c]).length := by
      simp only [List.length_append, List.length_cons, List.length_nil]
      omega
    have hrate : ¬ t.current_samplerate ≠ some t.target_samplerate := by simp [ht]
    simp only [audio_callbackCollect, if_neg hc, if_pos h4, if_neg hrate]
  · intro t ht hne
    have hrate : ¬ t.current_samplerate ≠ some t.target_samplerate := by simp [ht]
    simp only [stopFlushCollect, if_pos hne, if_neg hrate]
  · intro s c hc hfull hok
    exact audio_callback_flush rs s c _ hc hfull hok

theorem c5_equal_rate_identity_amended_witness :
    c5stop.current_samplerate = some c5stop.target_samplerate ∧
    c5stop.resample_buffer ≠ [] ∧
    flushRemainder rsId c5stop
      = { c5stop with audio_data := c5stop.audio_data ++ [c5stop.resample_buffer.flatten],
                      resample_buffer := [] } :=
  ⟨rfl, by decide, (c5_equal_rate_identity_amended rsId).1 c5stop rfl (by decide)⟩

theorem interpResample_length (data : Chunk) (native target : ℕ) :
    (interpResample data native target).length = data.length * target / native := by
  simp only [interpResample, linspace, List.length_map, List.length_range]

/-- C6: for every buffer of length L at native rate R1 converted to target
rate R2 by the linear-interpolation fallback, the output length equals
round(L * R2 / R1) within plus or minus one sample.  (The code computes
`int(L * R2 / R1)`, i.e. the floor, which is always within one of the rounded
value.) -/
theorem c6_fallback_output_length (data : Chunk) (native target : ℕ)
    (h : 0 < native) :
    |((interpResample data native target).length : ℤ)
        - round (((data.length * target : ℕ) : ℚ) / (native : ℚ))| ≤ 1 := by
  set x : ℚ := ((data.length * target : ℕ) : ℚ) / (native : ℚ) with hxdef
  have hx0 : 0 ≤ x := by rw [hxdef]; positivity
  have hfloor : ⌊x⌋₊ = data.length * target / native := by
    rw [hxdef, Nat.floor_div_nat, Nat.floor_natCast]
  have hcast : ((⌊x⌋₊ : ℕ) : ℤ) = ⌊x⌋ := by
    rw [← Int.floor_toNat, Int.toNat_of_nonneg (Int.floor_nonneg.mpr hx0)]
  have h1 : ⌊x⌋ ≤ round x := by
    rw [round_eq]
    exact Int.floor_le_floor (by linarith)
  have h2 : round x ≤ ⌊x⌋ + 1 := by
    rw [round_eq]
    have hle : x + 1 / 2 ≤ x + 1 := by linarith
    have hmono := Int.floor_le_floor hle
    have heq : ⌊x + 1⌋ = ⌊x⌋ + 1 := by exact_mod_cast Int.floor_add_int x 1
    omega
  rw [interpResample_length, ← hfloor, hcast, abs_le]
  omega

theorem c6_fallback_output_length_witness :
    (0 : ℕ) < 44100 ∧
    |((interpResample (List.replicate 4096 0) 44100 16000).length : ℤ)
        - round ((((List.replicate (4096 : ℕ) (0 : ℚ)).length * 16000 : ℕ) : ℚ)
            / ((44100 : ℕ) : ℚ))| ≤ 1 :=
  ⟨by norm_num,
   c6_fallback_output_length (List.replicate 4096 0) 44100 16000 (by norm_num)⟩

theorem runCallbacks_quiet (rs : Resampler) (chunks : List Chunk) (s : VTT)
    (hq : ∀ c ∈ chunks, chunkMaxAbs c < gateThreshold) :
    runCallbacks rs s chunks = s := by
  induction chunks generalizing s with
  | nil => rfl
  | cons c cs ih =>
      have h1 : audio_callback rs s c = s :=
        audio_callback_quiet rs s c (hq c (List.mem_cons_self c cs))
      show runCallbacks rs (audio_callback rs s c) cs = s
      rw [h1]
      exact ih s (fun d hd => hq d (List.mem_cons_of_mem c hd))

theorem insert_text_preserves (s : VTT) (t : String) :
    (insert_text s t).recording = s.recording ∧
    (insert_text s t).spawnCount = s.spawnCount := by
  unfold insert_text
  split <;> exact ⟨rfl, rfl⟩

theorem flushRemainder_preserves (rs : Resampler) (s : VTT) :
    (flushRemainder rs s).recording = s.recording ∧
    (flushRemainder rs s).spawnCount = s.spawnCount := by
  by_cases hne : s.resample_buffer ≠ []
  · by_cases hrate : s.current_samplerate ≠ some s.target_samplerate
    · cases hrs : rs s.resample_buffer.flatten s.current_samplerate s.target_samplerate
        with
      | ok a => simp [flushRemainder, hne, hrate, hrs]
      | error e => simp [flushRemainder, hne, hrate, hrs]
    · simp [flushRemainder, hne, hrate]
  · simp [flushRemainder, hne]

theorem finalizeSession_preserves (eng : Engine) (s : VTT) :
    (finalizeSession eng s).recording = s.recording ∧
    (finalizeSession eng s).spawnCount = s.spawnCount := by
  by_cases hne : s.audio_data ≠ []
  · cases heng : eng s.audio_data.flatten with
    | ok raw =>
        by_cases ht : raw.trim ≠ ""
        · simp only [finalizeSession, if_pos hne, heng, if_pos ht]
          exact ⟨(insert_text_preserves _ _).1, (insert_text_preserves _ _).2⟩
        · simp [finalizeSession, hne, heng, ht]
    | error e => simp [finalizeSession, hne, heng]
  · simp [finalizeSession, hne]

/-- C7: a session in which every delivered chunk is below the energy gate
(pure silence) accumulates nothing; stopping it flushes no remainder, the
session completes as success (recording off, no error logged) with no
transcription: the engine is never invoked and no text is ever emitted. -/
theorem c7_silent_session_success (rs : Resampler) (eng : Engine) (rate : ℕ)
    (chunks : List Chunk)
    (hq : ∀ c ∈ chunks, chunkMaxAbs c < gateThreshold) :
    toggle_recording rs eng
        (record_audio (some rate) rs chunks (toggle_recording rs eng initVTT)).1
      = { initVTT with recording := false, current_samplerate := some rate,
                         spawnCount := 1 } ∧
    initVTT.transcribeCalls = 0 ∧ initVTT.emitted = [] ∧
    initVTT.errorsLogged = 0 ∧ initVTT.audio_data = [] ∧
    initVTT.resample_buffer = [] := by
  have hrun : (record_audio (some rate) rs chunks (toggle_recording rs eng initVTT)).1
      = { initVTT with recording := true, current_samplerate := some rate,
                         spawnCount := 1 } :=
    runCallbacks_quiet rs chunks
      { initVTT with recording := true, current_samplerate := some rate,
                     spawnCount := 1 } hq
  refine ⟨?_, rfl, rfl, rfl, rfl, rfl⟩
  rw [hrun]
  rfl

theorem c7_silent_session_success_witness :
    (∀ c ∈ [([0] : Chunk)], chunkMaxAbs c < gateThreshold) ∧
    toggle_recording rsId engEmpty
        (record_audio (some 44100) rsId [[0]] (toggle_recording rsId engEmpty initVTT)).1
      = { initVTT with recording := false, current_samplerate := some 44100,
                         spawnCount := 1 } :=
  ⟨by intro c hc
      simp only [List.mem_singleton] at hc
      subst hc
      simp [chunkMaxAbs, gateThreshold],
   (c7_silent_session_success rsId engEmpty 44100 [[0]]
     (by intro c hc
         simp only [List.mem_singleton] at hc
         subst hc
         simp [chunkMaxAbs, gateThreshold])).1⟩

/-- C8 counterexample: the claim says that at every Recording-to-Finalizing
transition the control thread signals and joins the capture thread before
reading or flushing the shared buffers.  In `VoiceToText.toggle_recording`
there is no join at all — the stop branch clears the flag and immediately
flushes the shared resample buffer while the capture thread may still be
running (the thread handle is not even retained). -/
theorem c8_no_join_counterexample : StopAction.joinThread ∉ vttStopTrace := by
  decide

/-- C8 (amended): the sample collector's `stop_recording` does clear the flag,
join the capture thread and only then flush the shared buffer and finalize;
`voicetotext.py`'s toggle stop path clears the flag and flushes without ever
joining the capture thread, so the join-before-flush discipline holds only in
the collector variant. -/
theorem c8_join_order_amended :
    collectStopTrace
      = [StopAction.clearFlag, StopAction.joinThread, StopAction.flushBuffer,
         StopAction.finalizeEngine] ∧
    collectStopTrace.indexOf StopAction.clearFlag
      < collectStopTrace.indexOf StopAction.joinThread ∧
    collectStopTrace.indexOf StopAction.joinThread
      < collectStopTrace.indexOf StopAction.flushBuffer ∧
    collectStopTrace.indexOf StopAction.flushBuffer
      < collectStopTrace.indexOf StopAction.finalizeEngine ∧
    StopAction.flushBuffer ∈ vttStopTrace ∧
    StopAction.joinThread ∉ vttStopTrace := by
  decide

/-- C9 counterexample: the claim says invoking start while a session is live
is an idempotent no-op that never spawns a second capture thread and never
corrupts the accumulated audio.  `VoiceSampleCollector.start_recording` has no
guard: invoked on a live session (`recording = true`, one accumulated chunk)
it spawns a second capture thread and discards the accumulated audio. -/
theorem c9_double_start_counterexample :
    c9state.recording = true ∧
    (start_recording c9state).spawnCount = c9state.spawnCount + 1 ∧
    (start_recording c9state).audio_data = [] ∧
    c9state.audio_data ≠ [] := by
  refine ⟨rfl, rfl, rfl, by decide⟩

/-- C9 (amended): in `voicetotext.py` there is no separate start control — a
toggle received while Recording drives the stop edge (flag turns off, no new
capture thread is spawned); in `collect_voice_samples.py`, `start_recording`
called while a session is live is not a no-op: it unconditionally spawns a
second capture thread and resets the accumulated audio. -/
theorem c9_double_start_amended (rs : Resampler) (eng : Engine) (s : VTT)
    (t : Collector) (hs : s.recording = true) (_ht : t.recording = true) :
    (toggle_recording rs eng s).recording = false ∧
    (toggle_recording rs eng s).spawnCount = s.spawnCount ∧
    (start_recording t).spawnCount = t.spawnCount + 1 ∧
    (start_recording t).audio_data = [] := by
  have h0 : toggle_recording rs eng s
      = finalizeSession eng (flushRemainder rs { s with recording := !s.recording }) := by
    simp [toggle_recording, hs]
  refine ⟨?_, ?_, rfl, rfl⟩
  · rw [h0, (finalizeSession_preserves _ _).1, (flushRemainder_preserves _ _).1]
    simp [hs]
  · rw [h0, (finalizeSession_preserves _ _).2, (flushRemainder_preserves _ _).2]

theorem c9_double_start_amended_witness :
    c9vtt.recording = true ∧ c9state.recording = true ∧
    (toggle_recording rsId engEmpty c9vtt).spawnCount = c9vtt.spawnCount ∧
    (start_recording c9state).spawnCount = c9state.spawnCount + 1 :=
  ⟨rfl, rfl,
   (c9_double_start_amended rsId engEmpty c9vtt c9state rfl rfl).2.1,
   (c9_double_start_amended rsId engEmpty c9vtt c9state rfl rfl).2.2.1⟩

/-- C10: an Idle-to-Recording start resets the accumulated audio to empty but
leaves the resample buffer untouched (both scripts), so chunks left buffered
from the previous session are carried into the new session: the next admitted
chunk that fills the buffer flushes a conversion of the leftover chunks
concatenated (in order) with the new one, which becomes the new session's
first accumulated output. -/
theorem c10_stale_buffer_carried (rs : Resampler) (eng : Engine) (s : VTT)
    (t : Collector) (c : Chunk) (r : Chunk)
    (hrec : s.recording = false)
    (hbuf : s.resample_buffer.length = 3)
    (hc : ¬ chunkMaxAbs c < gateThreshold)
    (hok : rs (s.resample_buffer ++ [c]).flatten s.current_samplerate s.target_samplerate
             = Except.ok r) :
    (toggle_recording rs eng s).resample_buffer = s.resample_buffer ∧
    (toggle_recording rs eng s).audio_data = [] ∧
    (start_recording t).resample_buffer = t.resample_buffer ∧
    (start_recording t).audio_data = [] ∧
    (audio_callback rs (toggle_recording rs eng s) c).audio_data = [r] := by
  have h0 : toggle_recording rs eng s
      = { s with recording := true, audio_data := [],
                 spawnCount := s.spawnCount + 1 } := by
    simp [toggle_recording, hrec]
  refine ⟨?_, ?_, rfl, rfl, ?_⟩
  · rw [h0]
  · rw [h0]
  · rw [h0, audio_callback_flush rs
      { s with recording := true, audio_data := [], spawnCount := s.spawnCount + 1 }
      c r hc hbuf hok]
    rfl

theorem c10_stale_buffer_carried_witness :
    c10state.recording = false ∧
    c10state.resample_buffer.length = 3 ∧
    (¬ chunkMaxAbs [1] < gateThreshold) ∧
    rsId (c10state.resample_buffer ++ [[1]]).flatten c10state.current_samplerate
      c10state.target_samplerate = Except.ok [1, 2, 3, 1] ∧
    (audio_callback rsId (toggle_recording rsId engEmpty c10state) [1]).audio_data
      = [[1, 2, 3, 1]] :=
  ⟨rfl, rfl, by simp [chunkMaxAbs, gateThreshold]; norm_num, rfl,
   (c10_stale_buffer_carried rsId engEmpty c10state c10coll [1] [1, 2, 3, 1]
     rfl rfl (by simp [chunkMaxAbs, gateThreshold]; norm_num) rfl).2.2.2.2⟩
